import Mathlib

/-!
Shallow embedding of the `carhire` Python SDK (sohaib11222/gloria_backend,
`sdks/python-agent/carhire/`) and proofs about the behaviour of its
availability, configuration and booking layers.

Python `datetime` values and millisecond timestamps are modelled as `Int`,
dictionaries with a fixed key set as structures whose `Option` fields record
key presence, and fallible constructors (`raise ValueError`) as
`Except String`.
-/

namespace Carhire

/-- Python `s.strip()`: drop whitespace from both ends. -/
def pyStrip (s : String) : String :=
  ⟨((s.data.dropWhile Char.isWhitespace).reverse.dropWhile Char.isWhitespace).reverse⟩

/-- Python `s.strip() == ""` (also covers the falsiness of the empty string
in `not s or not s.strip()`). -/
def pyBlank (s : String) : Bool := pyStrip s == ""

/-- Python `s.upper()`: uppercase every character. -/
def pyUpper (s : String) : String := ⟨s.data.map Char.toUpper⟩

/-- Python `not data.get(key) or not str(data.get(key, "")).strip()` for a
string-valued key modelled as an `Option String`. -/
def pyBlankOpt (o : Option String) : Bool := pyBlank (o.getD "")

/-! ## `dto.py`: `AvailabilityCriteria` -/

/-- The fields stored by `AvailabilityCriteria.__init__` (`dto.py`).
`datetime` values are `Int` timestamps; `extras` is an association list. -/
structure AvailabilityCriteria where
  pickup_locode : String
  return_locode : String
  pickup_at : Int
  return_at : Int
  driver_age : Int
  currency : String
  agreement_refs : List String
  vehicle_prefs : List String
  rate_prefs : List String
  residency_country : String
  extras : List (String × String)
  deriving DecidableEq, Repr

/-- `AvailabilityCriteria.__init__`: stores its arguments unchanged, with
`vehicle_prefs or []`, `rate_prefs or []`, `extras or {}` defaults.
It performs no validation. -/
def AvailabilityCriteria.init
    (pickup_locode return_locode : String)
    (pickup_at return_at : Int)
    (driver_age : Int)
    (currency : String)
    (agreement_refs : List String)
    (vehicle_prefs rate_prefs : Option (List String) := none)
    (residency_country : String := "US")
    (extras : Option (List (String × String)) := none) :
    AvailabilityCriteria :=
  { pickup_locode := pickup_locode
    return_locode := return_locode
    pickup_at := pickup_at
    return_at := return_at
    driver_age := driver_age
    currency := currency
    agreement_refs := agreement_refs
    vehicle_prefs := vehicle_prefs.getD []
    rate_prefs := rate_prefs.getD []
    residency_country := residency_country
    extras := extras.getD [] }

/-- `AvailabilityCriteria.make` (`dto.py`): validates, then constructs via
`__init__` with the location codes and currency stripped and upper-cased.
The Python `isinstance(..., datetime)` checks are discharged by typing. -/
def AvailabilityCriteria.make
    (pickup_locode return_locode : String)
    (pickup_at return_at : Int)
    (driver_age : Int)
    (currency : String)
    (agreement_refs : List String)
    (vehicle_prefs rate_prefs : Option (List String) := none)
    (residency_country : String := "US")
    (extras : Option (List (String × String)) := none) :
    Except String AvailabilityCriteria :=
  if pyBlank pickup_locode then .error "pickup_locode is required"
  else if pyBlank return_locode then .error "return_locode is required"
  else if return_at ≤ pickup_at then .error "return_at must be after pickup_at"
  else if driver_age = 0 ∨ driver_age < 18 ∨ driver_age > 100 then
    .error "driver_age must be between 18 and 100"
  else if pyBlank currency then .error "currency is required"
  else if agreement_refs = [] then .error "agreement_refs must be a non-empty list"
  else if residency_country ≠ "" ∧ residency_country.length ≠ 2 then
    .error "residency_country must be a 2-letter ISO code"
  else
    .ok (AvailabilityCriteria.init
      (pyUpper (pyStrip pickup_locode)) (pyUpper (pyStrip return_locode))
      pickup_at return_at driver_age (pyUpper (pyStrip currency))
      agreement_refs vehicle_prefs rate_prefs residency_country extras)

/-- The validity predicate for criteria: non-empty location codes, return
strictly after pickup, driver age in `[18, 100]`, non-empty agreement refs. -/
def AvailabilityCriteria.Valid (c : AvailabilityCriteria) : Prop :=
  c.pickup_locode ≠ "" ∧ c.return_locode ≠ "" ∧
  c.pickup_at < c.return_at ∧
  18 ≤ c.driver_age ∧ c.driver_age ≤ 100 ∧
  c.agreement_refs ≠ []

instance (c : AvailabilityCriteria) : Decidable c.Valid := by
  unfold AvailabilityCriteria.Valid
  infer_instance

/-! ## `dto.py`: `AvailabilityChunk` -/

/-- A poll-response dictionary as consumed by `AvailabilityChunk.from_dict`:
each `Option` field records whether the key is present (with a non-`None`
value). Result items are opaque and modelled as `Nat` identifiers. -/
structure PollResponse where
  items : Option (List Nat) := none
  status : Option String := none
  cursor : Option Int := none
  deriving DecidableEq, Repr

/-- `AvailabilityChunk` (`dto.py`): items, status, optional cursor, plus the
raw response dictionary. -/
structure AvailabilityChunk where
  items : List Nat
  status : String
  cursor : Option Int
  raw : PollResponse
  deriving DecidableEq, Repr

/-- `AvailabilityChunk.from_dict` (`dto.py`): `items` defaults to `[]`,
`status` defaults to `"PARTIAL"`, `cursor` is kept when present (Python
`int(data["cursor"]) if data.get("cursor") is not None else None`). -/
def AvailabilityChunk.from_dict (data : PollResponse) : AvailabilityChunk :=
  { items := data.items.getD []
    status := data.status.getD "PARTIAL"
    cursor := data.cursor
    raw := data }

/-! ## `config.py`: `Config` -/

/-- The dictionary passed to `Config`: `Option` fields record key presence. -/
structure ConfigData where
  baseUrl : Option String := none
  token : Option String := none
  apiKey : Option String := none
  agentId : Option String := none
  callTimeoutMs : Option Int := none
  availabilitySlaMs : Option Int := none
  longPollWaitMs : Option Int := none
  correlationId : Option String := none
  host : Option String := none
  caCert : Option String := none
  clientCert : Option String := none
  clientKey : Option String := none
  deriving DecidableEq, Repr

/-- A constructed `Config`: the defaults dictionary updated with the
supplied data (`defaults.update(data)` in `Config.__init__`). The random
`correlationId` default is modelled as an opaque fresh string. -/
structure Config where
  grpc : Bool
  baseUrl : String
  token : String
  apiKey : String
  agentId : String
  callTimeoutMs : Int
  availabilitySlaMs : Int
  longPollWaitMs : Int
  correlationId : Option String
  host : String
  caCert : String
  clientCert : String
  clientKey : String
  deriving DecidableEq, Repr

/-- `Config.__init__` (`config.py`): merge the supplied data over the
defaults. -/
def Config.init (grpc : Bool) (d : ConfigData) : Config :=
  { grpc := grpc
    baseUrl := d.baseUrl.getD ""
    token := d.token.getD ""
    apiKey := d.apiKey.getD ""
    agentId := d.agentId.getD ""
    callTimeoutMs := d.callTimeoutMs.getD 10000
    availabilitySlaMs := d.availabilitySlaMs.getD 120000
    longPollWaitMs := d.longPollWaitMs.getD 10000
    correlationId := d.correlationId
    host := d.host.getD ""
    caCert := d.caCert.getD ""
    clientCert := d.clientCert.getD ""
    clientKey := d.clientKey.getD "" }

/-- `Config.for_grpc` (`config.py`): requires non-blank `host`, `caCert`,
`clientCert`, `clientKey`; performs no other validation. -/
def Config.for_grpc (d : ConfigData) : Except String Config :=
  if pyBlankOpt d.host then .error "host is required for gRPC configuration"
  else if pyBlankOpt d.caCert then .error "caCert is required for gRPC configuration"
  else if pyBlankOpt d.clientCert then .error "clientCert is required for gRPC configuration"
  else if pyBlankOpt d.clientKey then .error "clientKey is required for gRPC configuration"
  else .ok (Config.init true d)

/-- Python `"key" in data and data["key"] < 1000` for an integer-valued key
modelled as an `Option Int`. -/
def suppliedBelow (o : Option Int) (lo : Int) : Bool :=
  match o with
  | some v => decide (v < lo)
  | none => false

/-- `Config.for_rest` (`config.py`): requires non-blank `baseUrl` and
`token`, and rejects any supplied `callTimeoutMs`, `availabilitySlaMs` or
`longPollWaitMs` below 1000 (`"key" in data and data["key"] < 1000`). -/
def Config.for_rest (d : ConfigData) : Except String Config :=
  if pyBlankOpt d.baseUrl then .error "baseUrl is required for REST configuration"
  else if pyBlankOpt d.token then .error "token is required for REST configuration"
  else if suppliedBelow d.callTimeoutMs 1000 then
    .error "callTimeoutMs must be at least 1000ms"
  else if suppliedBelow d.availabilitySlaMs 1000 then
    .error "availabilitySlaMs must be at least 1000ms"
  else if suppliedBelow d.longPollWaitMs 1000 then
    .error "longPollWaitMs must be at least 1000ms"
  else .ok (Config.init false d)

/-! ## `clients/availability.py`: `AvailabilityClient.search` -/

/-- The submit-response dictionary: `request_id` is `none` when the key is
absent (or `None`). -/
structure SubmitResponse where
  request_id : Option String := none
  deriving DecidableEq, Repr

/-- One call to `transport.availability_poll(request_id, since, wait)`,
together with the millisecond clock value the loop iteration observed when
it computed `remaining`. -/
structure PollCall where
  now : Int
  since : Int
  wait : Int
  deriving DecidableEq, Repr

/-- `since = chunk.cursor if chunk.cursor is not None else since`
(`availability.py`). -/
def nextSince (since : Int) (chunk : AvailabilityChunk) : Int :=
  chunk.cursor.getD since

/-- The `while True` loop of `AvailabilityClient.search`. The environment
`env` pairs, for each iteration, the clock value observed at the top of the
loop with the transport response to the poll issued in that iteration; the
loop consumes one pair per iteration. Returns the trace of poll calls made
and the chunks yielded. -/
def searchLoop (longPoll deadline : Int) :
    Int → List (Int × PollResponse) → List PollCall × List AvailabilityChunk
  | _, [] => ([], [])
  | since, (now, res) :: rest =>
    let remaining := max 0 (deadline - now)
    if remaining ≤ 0 then ([], [])
    else
      let wait := min longPoll remaining
      let chunk := AvailabilityChunk.from_dict res
      let tail :=
        if chunk.status = "COMPLETE" then (([], []) : List PollCall × List AvailabilityChunk)
        else searchLoop longPoll deadline (nextSince since chunk) rest
      (⟨now, since, wait⟩ :: tail.1, chunk :: tail.2)

/-- `AvailabilityClient.search` (`availability.py`). `t0` is the clock value
read when the deadline is computed; `submit` is the transport response to
`availability_submit`. Mirrors the source: raise on empty `agreement_refs`,
return silently on a missing/empty `request_id` (`if not request_id`), else
run the poll loop from `since = 0` with
`deadline = t0 + config.get("availabilitySlaMs", 120000)` and
`wait = min(config.get("longPollWaitMs", 10000), remaining)`. -/
def AvailabilityClient.search (cfg : Config) (criteria : AvailabilityCriteria)
    (t0 : Int) (submit : SubmitResponse) (env : List (Int × PollResponse)) :
    Except String (List PollCall × List AvailabilityChunk) :=
  if criteria.agreement_refs = [] then .error "agreement_refs required"
  else
    match submit.request_id with
    | none => .ok ([], [])
    | some rid =>
      if rid = "" then .ok ([], [])
      else .ok (searchLoop cfg.longPollWaitMs (t0 + cfg.availabilitySlaMs) 0 env)

/-- The session-cursor value after each yielded chunk, starting from
`since`: the "effective cursor position" sequence of a search. -/
def sinceSeq (since : Int) : List AvailabilityChunk → List Int
  | [] => []
  | c :: cs => nextSince since c :: sinceSeq (nextSince since c) cs

/-! ## `clients/booking.py`: `BookingClient` -/

/-- A value in a booking request payload dictionary. -/
inductive BVal where
  | str : String → BVal
  | strOpt : Option String → BVal
  | fields : List (String × String) → BVal
  deriving DecidableEq, Repr

/-- The single transport operation a booking method invokes, with the exact
arguments it passes. -/
inductive TransportCall where
  | booking_modify : List (String × BVal) → TransportCall
  | booking_cancel : List (String × BVal) → TransportCall
  | booking_check : String → String → Option String → TransportCall
  deriving DecidableEq, Repr

/-- `BookingClient.modify` (`booking.py`): one call to
`transport.booking_modify` with a payload of `supplier_booking_ref`,
`agreement_ref` and `fields`; the `source_id` parameter is accepted but not
placed in the payload. -/
def BookingClient.modify (supplier_booking_ref : String)
    (fields : List (String × String)) (agreement_ref : String)
    (source_id : Option String := none) : TransportCall :=
  let _ := source_id
  .booking_modify
    [("supplier_booking_ref", .str supplier_booking_ref),
     ("agreement_ref", .str agreement_ref),
     ("fields", .fields fields)]

/-- `BookingClient.cancel` (`booking.py`): one call to
`transport.booking_cancel` with a payload of `supplier_booking_ref` and
`agreement_ref`; the `source_id` parameter is accepted but not placed in
the payload. -/
def BookingClient.cancel (supplier_booking_ref : String)
    (agreement_ref : String) (source_id : Option String := none) :
    TransportCall :=
  let _ := source_id
  .booking_cancel
    [("supplier_booking_ref", .str supplier_booking_ref),
     ("agreement_ref", .str agreement_ref)]

/-- `BookingClient.check` (`booking.py`): one call to
`transport.booking_check` passing `supplier_booking_ref`, `agreement_ref`
and `source_id` positionally. -/
def BookingClient.check (supplier_booking_ref : String)
    (agreement_ref : String) (source_id : Option String := none) :
    TransportCall :=
  .booking_check supplier_booking_ref agreement_ref source_id

/-- The argument names a transport call forwards: the payload keys for the
dictionary-based operations, and the non-`None` positional arguments for
`booking_check`. -/
def TransportCall.forwardedKeys : TransportCall → List String
  | .booking_modify payload => payload.map Prod.fst
  | .booking_cancel payload => payload.map Prod.fst
  | .booking_check _ _ source_id =>
    ["supplier_booking_ref", "agreement_ref"] ++
      (if source_id.isSome then ["source_id"] else [])

/-! ## Concrete inputs used by counterexamples and witnesses -/

/-- A gRPC configuration dictionary with all required fields present and
`callTimeoutMs` supplied as 500 ms. -/
def grpcLowTimeoutData : ConfigData :=
  { host := some "grpc.example.com", caCert := some "ca", clientCert := some "cert",
    clientKey := some "key", callTimeoutMs := some 500 }

/-- A poll environment whose server cursors go 10 then 3: the second
response rewinds the cursor. -/
def rewindEnv : List (Int × PollResponse) :=
  [(0, { cursor := some 10, status := some "PARTIAL" }),
   (1, { cursor := some 3, status := some "PARTIAL" })]

/-! ## Helper lemmas -/

theorem pyUpper_eq_empty_iff (s : String) : pyUpper s = "" ↔ s = "" := by
  cases s with
  | mk l =>
    simp only [pyUpper, String.ext_iff]
    exact List.map_eq_nil_iff.trans (by simp [String.ext_iff])

theorem pyBlank_false_ne_empty {s : String} (h : pyBlank s = false) :
    pyStrip s ≠ "" := by
  simpa [pyBlank] using h

/-! ## Claim theorems -/

/-- Claim C3: when the submit response carries no usable request identifier
(`request_id` absent or the empty string), `AvailabilityClient.search`
terminates with zero chunks, zero poll calls and no error, provided the
criteria pass the initial `agreement_refs` guard. -/
theorem search_empty_request_id_yields_nothing
    (cfg : Config) (criteria : AvailabilityCriteria) (t0 : Int)
    (env : List (Int × PollResponse))
    (h : criteria.agreement_refs ≠ []) :
    AvailabilityClient.search cfg criteria t0 { request_id := none } env
      = .ok ([], []) ∧
    AvailabilityClient.search cfg criteria t0 { request_id := some "" } env
      = .ok ([], []) := by
  constructor <;> simp [AvailabilityClient.search, h]

/-- Witness for C3 at a concrete configuration, criteria and environment. -/
theorem search_empty_request_id_yields_nothing_witness :
    AvailabilityClient.search (Config.init false {})
      (AvailabilityCriteria.init "LHR" "LHR" 0 10 30 "USD" ["agr-1"]) 0
      { request_id := none }
      [(0, { cursor := some 5 })] = .ok ([], []) := by
  exact (search_empty_request_id_yields_nothing (Config.init false {})
    (AvailabilityCriteria.init "LHR" "LHR" 0 10 30 "USD" ["agr-1"]) 0
    [(0, { cursor := some 5 })] (by decide)).1

/-- Claim C5: `AvailabilityCriteria.make` succeeds only when
`return_at > pickup_at`, `18 ≤ driver_age ≤ 100` and `agreement_refs` is
non-empty; any input violating one of these conditions fails with a
validation error (and, `make` being a pure constructor, no transport call
occurs). -/
theorem make_validation_necessary
    (p r : String) (pa ra age : Int) (cur : String) (refs : List String)
    (vp rp : Option (List String)) (res : String)
    (ex : Option (List (String × String))) :
    ((AvailabilityCriteria.make p r pa ra age cur refs vp rp res ex).isOk = true →
      pa < ra ∧ 18 ≤ age ∧ age ≤ 100 ∧ refs ≠ []) ∧
    ((¬ pa < ra ∨ ¬ (18 ≤ age ∧ age ≤ 100) ∨ refs = []) →
      ∃ e, AvailabilityCriteria.make p r pa ra age cur refs vp rp res ex
        = .error e) := by
  unfold AvailabilityCriteria.make
  split
  · exact ⟨fun h => absurd h (by exact fun hc => nomatch hc), fun _ => ⟨_, rfl⟩⟩
  · split
    · exact ⟨fun h => absurd h (by exact fun hc => nomatch hc), fun _ => ⟨_, rfl⟩⟩
    · split
      · exact ⟨fun h => absurd h (by exact fun hc => nomatch hc), fun _ => ⟨_, rfl⟩⟩
      · split
        · exact ⟨fun h => absurd h (by exact fun hc => nomatch hc), fun _ => ⟨_, rfl⟩⟩
        · split
          · exact ⟨fun h => absurd h (by exact fun hc => nomatch hc), fun _ => ⟨_, rfl⟩⟩
          · split
            · exact ⟨fun h => absurd h (by exact fun hc => nomatch hc), fun _ => ⟨_, rfl⟩⟩
            · split
              · exact ⟨fun h => absurd h (by exact fun hc => nomatch hc), fun _ => ⟨_, rfl⟩⟩
              · rename_i hra hage hrefs _
                refine ⟨fun _ => ⟨by omega, by omega, by omega, hrefs⟩, fun hv => ?_⟩
                rcases hv with hv | hv | hv
                · omega
                · omega
                · exact absurd hv hrefs

/-- Witness for C5 at concrete arguments. -/
theorem make_validation_necessary_witness :
    (AvailabilityCriteria.make "lhr" "lhr" 0 10 30 "usd" ["a"] none none "US"
      none).isOk = true ∧
    (0 : Int) < 10 ∧ (18 : Int) ≤ 30 ∧ (30 : Int) ≤ 100 ∧ (["a"] : List String) ≠ [] := by
  refine ⟨by decide, ?_⟩
  exact (make_validation_necessary "lhr" "lhr" 0 10 30 "usd" ["a"]
    none none "US" none).1 (by decide)

/-- Claim C6, counterexample: `AvailabilityCriteria.__init__` performs no
validation, so an invalid criteria object (driver age 5) can be
constructed directly; the invariant "an invalid criteria object can never
exist" does not hold of the class as implemented. -/
theorem init_bypasses_validation_counterexample :
    ¬ (AvailabilityCriteria.init "LHR" "CDG" 0 1 5 "USD" ["agr-1"]).Valid := by
  decide

/-- Claim C6, amended: every criteria object constructed through the
validating constructor `AvailabilityCriteria.make` satisfies the validity
predicate; `make` either yields a fully valid value or fails. -/
theorem make_ok_implies_valid
    (p r : String) (pa ra age : Int) (cur : String) (refs : List String)
    (vp rp : Option (List String)) (res : String)
    (ex : Option (List (String × String))) (c : AvailabilityCriteria)
    (h : AvailabilityCriteria.make p r pa ra age cur refs vp rp res ex = .ok c) :
    c.Valid := by
  unfold AvailabilityCriteria.make at h
  split at h
  · exact absurd h (by simp)
  · split at h
    · exact absurd h (by simp)
    · split at h
      · exact absurd h (by simp)
      · split at h
        · exact absurd h (by simp)
        · split at h
          · exact absurd h (by simp)
          · split at h
            · exact absurd h (by simp)
            · split at h
              · exact absurd h (by simp)
              · rename_i hp hr hra hage hcur hrefs hres
                injection h with h
                subst h
                simp only [AvailabilityCriteria.Valid, AvailabilityCriteria.init]
                refine ⟨?_, ?_, by omega, by omega, by omega, hrefs⟩
                · exact fun hc => pyBlank_false_ne_empty (by simpa using hp)
                    ((pyUpper_eq_empty_iff _).mp hc)
                · exact fun hc => pyBlank_false_ne_empty (by simpa using hr)
                    ((pyUpper_eq_empty_iff _).mp hc)

/-- Witness for C6's amended theorem at concrete arguments. -/
theorem make_ok_implies_valid_witness :
    (AvailabilityCriteria.init "LHR" "LHR" 0 10 30 "USD" ["a"]).Valid := by
  exact make_ok_implies_valid "lhr" "lhr" 0 10 30 "usd" ["a"] none none "US" none
    (AvailabilityCriteria.init "LHR" "LHR" 0 10 30 "USD" ["a"]) rfl

/-- Claim C7, counterexample: `Config.for_grpc` performs no timing
validation, so a gRPC configuration with `callTimeoutMs = 500 < 1000` is
constructed successfully — the 1000 ms floor is not enforced for both
transport modes. -/
theorem for_grpc_accepts_low_timeout_counterexample :
    (Config.for_grpc grpcLowTimeoutData).toOption.map Config.callTimeoutMs
      = some 500 ∧ (500 : Int) < 1000 := by
  refine ⟨by decide, by decide⟩

/-- Claim C7, amended: only `Config.for_rest` enforces the 1000 ms floor:
every successfully constructed REST configuration has `callTimeoutMs`,
`availabilitySlaMs` and `longPollWaitMs` at least 1000 (supplied values
below 1000 are rejected, absent values fall back to defaults ≥ 1000);
`Config.for_grpc` performs no timing validation. -/
theorem for_rest_ok_implies_timing_floor (d : ConfigData) (c : Config)
    (h : Config.for_rest d = .ok c) :
    1000 ≤ c.callTimeoutMs ∧ 1000 ≤ c.availabilitySlaMs ∧
    1000 ≤ c.longPollWaitMs := by
  unfold Config.for_rest at h
  split at h
  · exact absurd h (by simp)
  · split at h
    · exact absurd h (by simp)
    · split at h
      · exact absurd h (by simp)
      · split at h
        · exact absurd h (by simp)
        · split at h
          · exact absurd h (by simp)
          · rename_i hct hsla hlp
            injection h with h
            subst h
            unfold Config.init
            refine ⟨?_, ?_, ?_⟩
            · cases hc : d.callTimeoutMs with
              | none => simp [hc]
              | some v =>
                rw [hc] at hct
                simp only [suppliedBelow, decide_eq_true_eq] at hct
                simp [hc]
                omega
            · cases hc : d.availabilitySlaMs with
              | none => simp [hc]
              | some v =>
                rw [hc] at hsla
                simp only [suppliedBelow, decide_eq_true_eq] at hsla
                simp [hc]
                omega
            · cases hc : d.longPollWaitMs with
              | none => simp [hc]
              | some v =>
                rw [hc] at hlp
                simp only [suppliedBelow, decide_eq_true_eq] at hlp
                simp [hc]
                omega

/-- Witness for C7's amended theorem at a concrete REST configuration. -/
theorem for_rest_ok_implies_timing_floor_witness :
    1000 ≤ (Config.init false
      { baseUrl := some "https://api.example.com", token := some "tok",
        callTimeoutMs := some 2000 }).callTimeoutMs := by
  exact (for_rest_ok_implies_timing_floor
    { baseUrl := some "https://api.example.com", token := some "tok",
      callTimeoutMs := some 2000 }
    (Config.init false
      { baseUrl := some "https://api.example.com", token := some "tok",
        callTimeoutMs := some 2000 }) rfl).1

/-- Claim C8, counterexample: `AvailabilityChunk.from_dict` applies the
`"PARTIAL"` default only when the `status` key is missing; a
server-supplied unknown value such as `"SOMETHING_ELSE"` is kept verbatim
in the chunk, not replaced by `"PARTIAL"`. -/
theorem from_dict_unknown_status_counterexample :
    (AvailabilityChunk.from_dict { status := some "SOMETHING_ELSE" }).status
      ≠ "PARTIAL" := by
  decide

/-- Claim C8, amended: a server-supplied status value is passed through to
the chunk unchanged, and the search loop treats every status other than
`"COMPLETE"` (unknown values included) as non-terminal: it yields the
chunk and keeps polling, exactly as for `"PARTIAL"`. -/
theorem unknown_status_passthrough_nonterminal
    (r : PollResponse) (s : String) (lp dl since now : Int)
    (rest : List (Int × PollResponse)) (hs : r.status = some s) :
    (AvailabilityChunk.from_dict r).status = s ∧
    (0 < dl - now → s ≠ "COMPLETE" →
      searchLoop lp dl since ((now, r) :: rest) =
        (⟨now, since, min lp (dl - now)⟩ ::
          (searchLoop lp dl
            (nextSince since (AvailabilityChunk.from_dict r)) rest).1,
         AvailabilityChunk.from_dict r ::
          (searchLoop lp dl
            (nextSince since (AvailabilityChunk.from_dict r)) rest).2)) := by
  have hst : (AvailabilityChunk.from_dict r).status = s := by
    simp [AvailabilityChunk.from_dict, hs]
  refine ⟨hst, fun hrem hnc => ?_⟩
  simp only [searchLoop]
  rw [if_neg (by omega)]
  rw [if_neg (by rw [hst]; exact hnc)]
  have hmax : max 0 (dl - now) = dl - now := by omega
  rw [hmax]

/-- Witness for C8 at a concrete unknown-status response. -/
theorem unknown_status_passthrough_nonterminal_witness :
    (AvailabilityChunk.from_dict { status := some "NEW_STATUS" }).status
      = "NEW_STATUS" := by
  exact (unknown_status_passthrough_nonterminal
    { status := some "NEW_STATUS" } "NEW_STATUS" 10000 120000 0 0 [] rfl).1

/-- Claim C9: `AvailabilityChunk.from_dict` degrades gracefully on missing
fields — no `items` key gives an empty item list, no `status` key gives
status `"PARTIAL"`, no (or null) `cursor` key gives cursor `None` — and a
chunk without a cursor leaves the search loop's session cursor unchanged
for the next poll (`since = chunk.cursor if chunk.cursor is not None else
since`). -/
theorem from_dict_graceful_defaults (r : PollResponse) (since : Int) :
    (r.items = none → (AvailabilityChunk.from_dict r).items = []) ∧
    (r.status = none → (AvailabilityChunk.from_dict r).status = "PARTIAL") ∧
    (r.cursor = none → (AvailabilityChunk.from_dict r).cursor = none ∧
      nextSince since (AvailabilityChunk.from_dict r) = since) := by
  refine ⟨fun h => ?_, fun h => ?_, fun h => ⟨?_, ?_⟩⟩ <;>
    simp [AvailabilityChunk.from_dict, nextSince, h]

/-- Witness for C9 at the fully empty poll response. -/
theorem from_dict_graceful_defaults_witness :
    (AvailabilityChunk.from_dict {}).items = [] ∧
    (AvailabilityChunk.from_dict {}).status = "PARTIAL" ∧
    nextSince 7 (AvailabilityChunk.from_dict {}) = 7 := by
  exact ⟨(from_dict_graceful_defaults {} 7).1 rfl,
    (from_dict_graceful_defaults {} 7).2.1 rfl,
    ((from_dict_graceful_defaults {} 7).2.2 rfl).2⟩

/-- Claim C10, counterexample: `BookingClient.modify` and
`BookingClient.cancel` accept a `source_id` argument but do not place it
in the payload sent to the transport — the supplied `source_id` is not
forwarded, contradicting "forwards its full scope ... and the optional
source_id when supplied". -/
theorem modify_cancel_drop_source_id_counterexample :
    "source_id" ∉
      (BookingClient.modify "BR-1" [("pickup_iso", "2025-01-01")] "AGR-1"
        (some "SRC-9")).forwardedKeys ∧
    "source_id" ∉
      (BookingClient.cancel "BR-1" "AGR-1" (some "SRC-9")).forwardedKeys := by
  decide

/-- Claim C10, amended: each booking method issues exactly one transport
call with no looping or state; `modify` forwards `supplier_booking_ref`,
`agreement_ref` and `fields` (dropping `source_id`), `cancel` forwards
`supplier_booking_ref` and `agreement_ref` (dropping `source_id`), and
only `check` forwards the optional `source_id` alongside the other two. -/
theorem booking_forwarding (ref agr : String)
    (fields : List (String × String)) (src : Option String) :
    (BookingClient.modify ref fields agr src).forwardedKeys
      = ["supplier_booking_ref", "agreement_ref", "fields"] ∧
    (BookingClient.cancel ref agr src).forwardedKeys
      = ["supplier_booking_ref", "agreement_ref"] ∧
    BookingClient.check ref agr src = .booking_check ref agr src ∧
    (src.isSome = true →
      (BookingClient.check ref agr src).forwardedKeys
        = ["supplier_booking_ref", "agreement_ref", "source_id"]) := by
  refine ⟨rfl, rfl, rfl, fun h => ?_⟩
  simp [BookingClient.check, TransportCall.forwardedKeys, h]

/-- Witness for C10's amended theorem at concrete arguments. -/
theorem booking_forwarding_witness :
    (BookingClient.check "BR-2" "AGR-2" (some "SRC-1")).forwardedKeys
      = ["supplier_booking_ref", "agreement_ref", "source_id"] := by
  exact (booking_forwarding "BR-2" "AGR-2" [] (some "SRC-1")).2.2.2 rfl

/-- Claim C2: in every run of the poll loop of `AvailabilityClient.search`,
each poll call yields exactly one chunk (so no poll is made after the last
chunk), and every chunk except possibly the last has status other than
`"COMPLETE"`: at most one chunk has status `"COMPLETE"`, and when one is
emitted it is the last chunk of the sequence. -/
theorem search_complete_chunk_is_last (lp dl : Int)
    (env : List (Int × PollResponse)) : ∀ since : Int,
    (searchLoop lp dl since env).1.length
      = (searchLoop lp dl since env).2.length ∧
    ∀ c ∈ (searchLoop lp dl since env).2.dropLast, c.status ≠ "COMPLETE" := by
  induction env with
  | nil => intro since; exact ⟨rfl, by simp [searchLoop]⟩
  | cons e rest ih =>
    obtain ⟨now, res⟩ := e
    intro since
    simp only [searchLoop]
    split
    · exact ⟨rfl, by simp⟩
    · split
      · exact ⟨rfl, by simp⟩
      · rename_i hnc
        refine ⟨by simpa using (ih _).1, ?_⟩
        intro c hc
        cases htail : (searchLoop lp dl
            (nextSince since (AvailabilityChunk.from_dict res)) rest).2 with
        | nil => rw [htail] at hc; simp at hc
        | cons t ts =>
          rw [htail, List.dropLast_cons_of_ne_nil (by simp)] at hc
          rcases List.mem_cons.mp hc with hceq | hcmem
          · rw [hceq]; exact hnc
          · exact (ih _).2 c (by rw [htail]; exact hcmem)

/-- Witness for C2 on a concrete two-response environment ending with a
`COMPLETE` chunk. -/
theorem search_complete_chunk_is_last_witness :
    (searchLoop 10000 120000 0
        [(0, { cursor := some 4, status := some "PARTIAL" }),
         (50, { cursor := some 9, status := some "COMPLETE" })]).1.length
      = (searchLoop 10000 120000 0
        [(0, { cursor := some 4, status := some "PARTIAL" }),
         (50, { cursor := some 9, status := some "COMPLETE" })]).2.length ∧
    (AvailabilityChunk.from_dict { cursor := some 4, status := some "PARTIAL" }).status
      ≠ "COMPLETE" := by
  refine ⟨(search_complete_chunk_is_last 10000 120000
    [(0, { cursor := some 4, status := some "PARTIAL" }),
     (50, { cursor := some 9, status := some "COMPLETE" })] 0).1, ?_⟩
  exact (search_complete_chunk_is_last 10000 120000
    [(0, { cursor := some 4, status := some "PARTIAL" }),
     (50, { cursor := some 9, status := some "COMPLETE" })] 0).2
    (AvailabilityChunk.from_dict { cursor := some 4, status := some "PARTIAL" })
    (by decide)

/-- Claim C4: every poll call issued by the loop of
`AvailabilityClient.search` has its `wait` argument bounded by
`min(longPollWaitMs, remaining-time-to-deadline)`, and a poll is only
issued while the remaining time to the deadline is positive. -/
theorem poll_wait_capped_by_sla (lp dl : Int)
    (env : List (Int × PollResponse)) : ∀ since : Int,
    ∀ pc ∈ (searchLoop lp dl since env).1,
      pc.wait ≤ min lp (dl - pc.now) ∧ 0 < dl - pc.now := by
  induction env with
  | nil => intro since pc hpc; simp [searchLoop] at hpc
  | cons e rest ih =>
    obtain ⟨now, res⟩ := e
    intro since pc hpc
    simp only [searchLoop] at hpc
    by_cases hrem : max 0 (dl - now) ≤ 0
    · rw [if_pos hrem] at hpc; simp at hpc
    · rw [if_neg hrem] at hpc
      rcases List.mem_cons.mp hpc with hpc | hpc
      · rw [hpc]
        constructor
        · simp only
          omega
        · simp only
          omega
      · by_cases hcs :
          (AvailabilityChunk.from_dict res).status = "COMPLETE"
        · rw [if_pos hcs] at hpc; simp at hpc
        · rw [if_neg hcs] at hpc
          exact ih _ pc hpc

/-- Witness for C4 on a concrete environment and poll call. -/
theorem poll_wait_capped_by_sla_witness :
    ({ now := 0, since := 0, wait := 10000 } : PollCall).wait
        ≤ min 10000 (120000 - ({ now := 0, since := 0, wait := 10000 } : PollCall).now) ∧
      0 < 120000 - ({ now := 0, since := 0, wait := 10000 } : PollCall).now := by
  exact poll_wait_capped_by_sla 10000 120000
    [(0, { cursor := some 2, status := some "PARTIAL" })] 0
    { now := 0, since := 0, wait := 10000 } (by decide)

/-- Claim C1, counterexample: the loop sets
`since = chunk.cursor if chunk.cursor is not None else since` with no
monotonicity guard, so when the server returns cursors 10 then 3 the
emitted session-cursor sequence is `[10, 3]` — it rewinds, refuting "the
cursor only ever advances, never rewinds, regardless of the cursor values
the server returns". -/
theorem search_cursor_rewind_counterexample :
    sinceSeq 0 (searchLoop 10000 120000 0 rewindEnv).2 = [10, 3] ∧
    ¬ List.Chain' (· ≤ ·) (sinceSeq 0 (searchLoop 10000 120000 0 rewindEnv).2) := by
  refine ⟨by decide, ?_⟩
  rw [show sinceSeq 0 (searchLoop 10000 120000 0 rewindEnv).2 = [10, 3] by decide]
  simp [List.chain'_cons]

/-- Claim C1, amended: the session cursor is overwritten by each
server-supplied cursor (and kept when absent), so the emitted
session-cursor sequence is non-decreasing provided the server's supplied
cursor values themselves continue non-decreasingly from the starting
cursor; it is not monotone for arbitrary server cursors. -/
theorem search_cursor_monotone_of_responses_monotone (lp dl : Int)
    (env : List (Int × PollResponse)) : ∀ since : Int,
    List.Chain' (· ≤ ·) (since :: env.filterMap (fun e => e.2.cursor)) →
    List.Chain' (· ≤ ·)
      (since :: sinceSeq since (searchLoop lp dl since env).2) := by
  induction env with
  | nil => intro since _; simp [searchLoop, sinceSeq]
  | cons e rest ih =>
    obtain ⟨now, res⟩ := e
    intro since h
    simp only [searchLoop]
    split
    · simp [sinceSeq]
    · simp only [sinceSeq]
      cases hc : res.cursor with
      | none =>
        simp only [List.filterMap_cons, hc] at h
        have hns : nextSince since (AvailabilityChunk.from_dict res) = since := by
          simp [nextSince, AvailabilityChunk.from_dict, hc]
        rw [hns]
        rw [List.chain'_cons]
        refine ⟨le_refl since, ?_⟩
        split
        · simp [sinceSeq]
        · exact ih since h
      | some c =>
        simp only [List.filterMap_cons, hc] at h
        have hns : nextSince since (AvailabilityChunk.from_dict res) = c := by
          simp [nextSince, AvailabilityChunk.from_dict, hc]
        rw [hns]
        rw [List.chain'_cons] at h ⊢
        refine ⟨h.1, ?_⟩
        split
        · simp [sinceSeq]
        · exact ih c h.2

/-- Witness for C1's amended theorem on a concrete monotone environment. -/
theorem search_cursor_monotone_witness :
    List.Chain' (· ≤ ·)
      (0 :: sinceSeq 0 (searchLoop 10000 120000 0
        [(0, { cursor := some 2, status := some "PARTIAL" })]).2) := by
  refine search_cursor_monotone_of_responses_monotone 10000 120000
    [(0, { cursor := some 2, status := some "PARTIAL" })] 0 ?_
  have hfm : List.filterMap (fun e => e.2.cursor)
      [((0 : Int), ({ cursor := some 2, status := some "PARTIAL" } : PollResponse))]
        = [2] := rfl
  rw [hfm]
  exact List.chain'_cons.mpr ⟨by omega, List.chain'_singleton 2⟩

end Carhire
